import Mathlib

/-!
Shallow embedding of the `agent_loop` repository (Python) in Lean 4.

The embedding mirrors, definition by definition, the source files
`src/agent_loop/models/tool_result.py`, `models/state.py`,
`tools/registry.py`, `policy/policy.py`, `audit/logger.py`,
`hitl/handler.py` and `orchestrator.py`.

Modelling conventions:
  * Python values of type `Any` that appear inside argument/data
    dictionaries are modelled by `PyVal` (a flat JSON-like value type);
    `dict[str, Any]` becomes an association list `PyDict`.
  * Python functions that may raise are modelled with `Except`:
    a tool callable returns `Except PyException ToolReturn`.
  * The external decision oracle (the `dspy.ChainOfThought` call) is
    modelled as a function from the oracle-call counter to a raw
    prediction record; within a single run this determinization covers
    every possible sequence of oracle responses.
  * `json.loads` (Python standard library, external to the repository)
    is modelled as an abstract parameter `jsonLoads : String → Option PyDict`
    returning `none` on parse failure.
  * `datetime.now().isoformat()` is an external clock; timestamps are
    modelled by an opaque constant string, which no claim depends on.
  * File persistence (`log_dir`) is modelled in its disabled state
    (`log_dir = None`, purely in-memory), matching the default
    `OrchestratorConfig(audit_dir=None)`; the JSONL text layer of
    `export_session`/`load_session` is abstracted to the list of
    per-entry dictionaries that the JSON lines encode.
-/

/-- Flat JSON-like Python value (models `Any` inside argument/data dicts). -/
inductive PyVal where
  | str : String → PyVal
  | int : Int → PyVal
  | boolean : Bool → PyVal
  | null : PyVal
deriving DecidableEq, Repr

/-- Models Python `dict[str, Any]` as an association list. -/
abbrev PyDict := List (String × PyVal)

/-- `ToolResult.status`, the `Literal["success", "error"]` field. -/
inductive TStatus where
  | success : TStatus
  | error : TStatus
deriving DecidableEq, Repr

/-- The literal string value carried by a `TStatus` at runtime in Python. -/
def TStatus.str : TStatus → String
  | TStatus.success => "success"
  | TStatus.error => "error"

/-- `HistoryEntry.outcome`, the `Literal["success", "error", "feedback"]` field. -/
inductive HOutcome where
  | success : HOutcome
  | error : HOutcome
  | feedback : HOutcome
deriving DecidableEq, Repr

/-- Passing a `ToolResult.status` value where a history outcome is expected
(the orchestrator does `outcome=result.status`). -/
def TStatus.toHOutcome : TStatus → HOutcome
  | TStatus.success => HOutcome.success
  | TStatus.error => HOutcome.error

/-- `HistoryEntry.actor`, the `Literal["agent", "tool", "human"]` field. -/
inductive Actor where
  | agent : Actor
  | tool : Actor
  | human : Actor
deriving DecidableEq, Repr

/-- `ToolResult` (models/tool_result.py): standardized tool execution result. -/
structure ToolResult where
  status : TStatus
  message : String
  data : Option PyDict
deriving DecidableEq, Repr

/-- `ToolResult.success(message)` with the default `data=None`. -/
def ToolResult.success (message : String) : ToolResult :=
  { status := TStatus.success, message := message, data := Option.none }

/-- `ToolResult.error(message)` with the default `data=None`. -/
def ToolResult.error (message : String) : ToolResult :=
  { status := TStatus.error, message := message, data := Option.none }

/-- A Python exception raised by a tool callable: `TypeError` (caught by the
first `except` clause of `ToolRegistry.execute`, e.g. an argument-shape
mismatch) or any other `Exception` (caught by the second).  The string is
`str(e)`. -/
inductive PyException where
  | typeError : String → PyException
  | otherError : String → PyException
deriving DecidableEq, Repr

/-- What a tool callable returns when it does not raise: either an actual
`ToolResult`, or some other Python value, carried here as its `str(...)`
rendering (the registry wraps the latter as a success). -/
inductive ToolReturn where
  | toolResult : ToolResult → ToolReturn
  | other : String → ToolReturn

/-- A tool callable: takes the keyword-argument dict, may raise. -/
abbrev ToolFunction := PyDict → Except PyException ToolReturn

/-- `ToolRegistry` (tools/registry.py): `_tools` and `_descriptions` dicts. -/
structure ToolRegistry where
  tools : List (String × ToolFunction)
  descriptions : List (String × String)

/-- `dict.get` on the `_tools` dict: first binding for the name, if any
(`register` keeps at most one binding per name). -/
def lookupTool : List (String × ToolFunction) → String → Option ToolFunction
  | [], _ => Option.none
  | (n, f) :: rest, name => if n = name then Option.some f else lookupTool rest name

/-- `ToolRegistry.register`: registers or overwrites a tool under a name. -/
def ToolRegistry.register (reg : ToolRegistry) (name : String) (func : ToolFunction)
    (description : String) : ToolRegistry :=
  { tools := (name, func) :: reg.tools.filter (fun p => p.1 ≠ name),
    descriptions := (name, description) :: reg.descriptions.filter (fun p => p.1 ≠ name) }

/-- `ToolRegistry.execute` in exception-transparent form: the codomain
`Except PyException ToolResult` makes any exception that the method could
propagate visible as an `Except.error`.  Each `return` of the source is an
`Except.ok`; the `try/except` around the tool invocation is the match on
the callable's own `Except` result, with both handler clauses returning
normally. -/
def ToolRegistry.executeE (reg : ToolRegistry) (name : String) (arguments : PyDict) :
    Except PyException ToolResult :=
  match lookupTool reg.tools name with
  | Option.none => Except.ok (ToolResult.error ("Tool \x27" ++ name ++ "\x27 not found"))
  | Option.some tool =>
    match tool arguments with
    | Except.ok (ToolReturn.toolResult r) => Except.ok r
    | Except.ok (ToolReturn.other s) => Except.ok (ToolResult.success s)
    | Except.error (PyException.typeError e) =>
        Except.ok (ToolResult.error ("Invalid arguments for \x27" ++ name ++ "\x27: " ++ e))
    | Except.error (PyException.otherError e) =>
        Except.ok (ToolResult.error ("Tool \x27" ++ name ++ "\x27 failed: " ++ e))

/-- `ToolRegistry.execute` read as the total function it is (every path of
the source returns normally); agrees with `executeE` by
`toolRegistry_execute_total`. -/
def ToolRegistry.execute (reg : ToolRegistry) (name : String) (arguments : PyDict) :
    ToolResult :=
  match lookupTool reg.tools name with
  | Option.none => ToolResult.error ("Tool \x27" ++ name ++ "\x27 not found")
  | Option.some tool =>
    match tool arguments with
    | Except.ok (ToolReturn.toolResult r) => r
    | Except.ok (ToolReturn.other s) => ToolResult.success s
    | Except.error (PyException.typeError e) =>
        ToolResult.error ("Invalid arguments for \x27" ++ name ++ "\x27: " ++ e)
    | Except.error (PyException.otherError e) =>
        ToolResult.error ("Tool \x27" ++ name ++ "\x27 failed: " ++ e)

/-- The raw prediction object returned by the external oracle call
(`self._policy(...)` in policy/policy.py), with the output fields of the
`Act` signature that `AgentPolicy.decide` reads.  All fields are strings,
exactly as dspy returns them. -/
structure RawPrediction where
  rationale : String
  decision_type : String
  selected_tool : String
  arguments : String
  hitl_request : String
  final_response : String
  action_confirmation : String
deriving DecidableEq, Repr

/-- `DecisionOutput` (policy/policy.py): structured decision output.
`decision_type` stays a string, as in the source; after `decide` it is one
of "tool", "hitl", "final" (`decide_decision_type_mem`). -/
structure DecisionOutput where
  rationale : String
  decision_type : String
  selected_tool : String
  arguments : PyDict
  hitl_request : String
  final_response : String
deriving Repr

/-- Python's `str.lower()` (ASCII case mapping, as used on decision-type
tags). -/
def pyLower (s : String) : String := String.mk (s.data.map Char.toLower)

/-- Python's `str.strip()`: drop whitespace from both ends. -/
def pyStrip (s : String) : String :=
  String.mk (((s.data.dropWhile Char.isWhitespace).reverse.dropWhile
    Char.isWhitespace).reverse)

/-- `AgentPolicy.decide` (policy/policy.py), after the external oracle call
has produced `result : RawPrediction`.  `jsonLoads` models Python's
`json.loads` restricted to dict results, `none` on `JSONDecodeError`.
Mirrors the source: parse the arguments JSON string (empty/whitespace or
unparsable gives `{}`), lower/strip-normalize the decision type, default
to "final" when unrecognized, and blank out the fields irrelevant to the
resolved type. -/
def AgentPolicy.decide (jsonLoads : String → Option PyDict) (result : RawPrediction) :
    DecisionOutput :=
  let arguments : PyDict :=
    if result.arguments ≠ "" ∧ pyStrip result.arguments ≠ "" then
      match jsonLoads result.arguments with
      | Option.some d => d
      | Option.none => []
    else []
  let dt := pyStrip (pyLower result.decision_type)
  let decision_type := if dt = "tool" ∨ dt = "hitl" ∨ dt = "final" then dt else "final"
  { rationale := result.rationale,
    decision_type := decision_type,
    selected_tool := if decision_type = "tool" then result.selected_tool else "",
    arguments := if decision_type = "tool" then arguments else [],
    hitl_request := if decision_type = "hitl" then result.hitl_request else "",
    final_response := if decision_type = "final" then result.final_response else "" }

/-- `HistoryEntry` (models/state.py): immutable fact record. -/
structure HistoryEntry where
  step : Nat
  actor : Actor
  action : String
  arguments : Option PyDict
  outcome : HOutcome
  result : String
deriving DecidableEq, Repr

/-- `AgentState` (models/state.py). -/
structure AgentState where
  goal : String
  user_messages : List String
  history : List HistoryEntry
  final_response : Option String
deriving DecidableEq, Repr

/-- `AgentState.add_history_entry`: append one entry to `history`. -/
def AgentState.add_history_entry (s : AgentState) (step : Nat) (actor : Actor)
    (action : String) (outcome : HOutcome) (result : String)
    (arguments : Option PyDict) : AgentState :=
  { s with history := s.history ++
      [{ step := step, actor := actor, action := action, arguments := arguments,
         outcome := outcome, result := result }] }

/-- `PolicyContext` (models/policy_context.py): immutable per-run strings;
also the shape of the `policy_context` dict snapshotted into the audit log. -/
structure PolicyContext where
  org_policies : String
  industry_rules : String
  domain_guidelines : String
deriving DecidableEq, Repr

/-- The `input_snapshot` dict built by `AuditLogger.log_decision`. -/
structure InputSnapshot where
  goal : String
  history_length : Nat
  policy_context : PolicyContext
deriving DecidableEq, Repr

/-- The decision-specific details merged into the `decision_output` dict
(`Orchestrator._get_decision_details`). -/
inductive DecisionDetails where
  | tool : String → PyDict → DecisionDetails
  | hitl : String → DecisionDetails
  | final : String → DecisionDetails
  | empty : DecisionDetails
deriving DecidableEq, Repr

/-- The `decision_output` dict of an audit entry:
`{"decision_type": ..., "rationale": ..., **decision_details}`. -/
structure DecisionOutputDict where
  decision_type : String
  rationale : String
  details : DecisionDetails
deriving DecidableEq, Repr

/-- The `outcome` dict set by `AuditLogger.log_outcome`. -/
structure OutcomeDict where
  otype : String
  status : String
  result : String
  data : Option PyDict
deriving DecidableEq, Repr

/-- `AuditEntry` (audit/logger.py). -/
structure AuditEntry where
  step : Nat
  timestamp : String
  input_snapshot : InputSnapshot
  decision_output : DecisionOutputDict
  outcome : Option OutcomeDict
deriving DecidableEq, Repr

/-- The per-entry dictionary produced by `AuditEntry.to_dict` (one JSONL
line); same fields as the entry, `outcome` serialized as JSON null when
absent. -/
structure AuditEntryDict where
  step : Nat
  timestamp : String
  input_snapshot : InputSnapshot
  decision_output : DecisionOutputDict
  outcome : Option OutcomeDict
deriving DecidableEq, Repr

/-- `AuditEntry.to_dict`. -/
def AuditEntry.to_dict (e : AuditEntry) : AuditEntryDict :=
  { step := e.step, timestamp := e.timestamp, input_snapshot := e.input_snapshot,
    decision_output := e.decision_output, outcome := e.outcome }

/-- `AuditLogger` in its in-memory state (`log_dir = None`): `_entries`. -/
structure AuditLogger where
  session_id : String
  entries : List AuditEntry
deriving DecidableEq, Repr

/-- `AuditLogger.log_decision`: append a new entry with `outcome = None`.
The timestamp comes from the external clock (`datetime.now().isoformat()`),
passed in by the caller of this embedding. -/
def AuditLogger.log_decision (log : AuditLogger) (step : Nat) (timestamp : String)
    (goal : String) (history_length : Nat) (policy_context : PolicyContext)
    (decision_type : String) (decision_details : DecisionDetails)
    (rationale : String) : AuditLogger :=
  { log with entries := log.entries ++
      [{ step := step, timestamp := timestamp,
         input_snapshot := { goal := goal, history_length := history_length,
                             policy_context := policy_context },
         decision_output := { decision_type := decision_type, rationale := rationale,
                              details := decision_details },
         outcome := Option.none }] }

/-- The `for entry in reversed(self._entries)` search of `log_outcome`,
expressed on the reversed list: set `outcome` on the first entry whose
`step` matches and stop (`break`); leave the list unchanged when no entry
matches. -/
def setOutcomeFirst : List AuditEntry → Nat → OutcomeDict → List AuditEntry
  | [], _, _ => []
  | e :: rest, step, o =>
      if e.step = step then { e with outcome := Option.some o } :: rest
      else e :: setOutcomeFirst rest step o

/-- `AuditLogger.log_outcome`: find the most recent entry for `step`
(search from the end of the log) and set its `outcome`; silently do
nothing when no entry has that step. -/
def AuditLogger.log_outcome (log : AuditLogger) (step : Nat) (outcome_type : String)
    (status : String) (result : String) (data : Option PyDict) : AuditLogger :=
  { log with entries :=
      (setOutcomeFirst log.entries.reverse step
        { otype := outcome_type, status := status, result := result, data := data }).reverse }

/-- The dictionary returned by `AuditLogger.export_session`. -/
structure SessionExport where
  session_id : String
  entries : List AuditEntryDict
deriving DecidableEq, Repr

/-- `AuditLogger.export_session`. -/
def AuditLogger.export_session (log : AuditLogger) : SessionExport :=
  { session_id := log.session_id, entries := log.entries.map AuditEntry.to_dict }

/-- The per-line reconstruction done by `AuditLogger.load_session`:
`AuditEntry(step=data["step"], ..., outcome=data.get("outcome"))`. -/
def entryFromDict (d : AuditEntryDict) : AuditEntry :=
  { step := d.step, timestamp := d.timestamp, input_snapshot := d.input_snapshot,
    decision_output := d.decision_output, outcome := d.outcome }

/-- `AuditLogger.load_session` over the parsed JSONL stream (the list of
per-entry dicts the file's lines decode to): reconstruct a logger holding
the entries in file order.  The fresh logger's session id is produced by
the external clock, passed in here. -/
def AuditLogger.load_session (new_session_id : String) (lines : List AuditEntryDict) :
    AuditLogger :=
  { session_id := new_session_id, entries := lines.map entryFromDict }

/-- `AsyncHITLHandler` (hitl/handler.py): `_pending_request` and `_response`. -/
structure AsyncHITLHandler where
  pending_request : Option String
  response : Option String
deriving DecidableEq, Repr

/-- `AsyncHITLHandler.__init__`: both fields start as `None`. -/
def AsyncHITLHandler.init : AsyncHITLHandler :=
  { pending_request := Option.none, response := Option.none }

/-- `AsyncHITLHandler.has_pending_request`. -/
def AsyncHITLHandler.has_pending_request (h : AsyncHITLHandler) : Bool :=
  h.pending_request.isSome

/-- `AsyncHITLHandler.request_human_input`: record the request, then raise
`HITLPendingError(request)` — unconditionally, as the source does.  The
`Except.error` carries the request text of the raised signal; an
`Except.ok` would be a normal return, which this method never performs. -/
def AsyncHITLHandler.request_human_input (h : AsyncHITLHandler) (request : String) :
    AsyncHITLHandler × Except String String :=
  ({ h with pending_request := Option.some request }, Except.error request)

/-- `AsyncHITLHandler.provide_response`: store the response, clear pending. -/
def AsyncHITLHandler.provide_response (h : AsyncHITLHandler) (response : String) :
    AsyncHITLHandler :=
  { h with response := Option.some response, pending_request := Option.none }

/-- `AsyncHITLHandler.get_response`: return and clear the stored response,
raising `ValueError` (the `Except.error`) when none was provided. -/
def AsyncHITLHandler.get_response (h : AsyncHITLHandler) :
    Except String (String × AsyncHITLHandler) :=
  match h.response with
  | Option.none => Except.error "No response has been provided"
  | Option.some r => Except.ok (r, { h with response := Option.none })

/-- What one call to the HITL channel's `request_human_input` does from the
orchestrator's point of view: return a string synchronously (console and
callback variants) or raise `HITLPendingError` (the queued variant). -/
inductive HITLReply where
  | response : String → HITLReply
  | pending : HITLReply
deriving DecidableEq, Repr

/-- The orchestrator's external collaborators, determinized per run:
the oracle indexed by its call counter, the HITL channel indexed by its
call counter, and the `json.loads` function used by the adapter. -/
structure Externals where
  oracle : Nat → RawPrediction
  hitl : Nat → String → HITLReply
  jsonLoads : String → Option PyDict

/-- The mutable data owned by one `Orchestrator.run` invocation: the agent
state, the audit logger, and instrumentation counters for how many oracle
calls, tool executions and HITL channel calls have happened. -/
structure RunState where
  state : AgentState
  audit : AuditLogger
  oracleCalls : Nat
  toolCalls : Nat
  hitlCalls : Nat
deriving Repr

/-- How a call to `Orchestrator.run` ends: `done` is a normal return of
the (mutated) state; `suspended` is the propagation of `HITLPendingError`
with the request text, the caller still seeing the mutations so far;
`stuck` marks the loop body falling through with a decision type outside
{"tool","hitl","final"}, in which Python the loop would spin forever
without incrementing `step` — unreachable, since the adapter normalizes
every decision type into the three values (`decide_decision_type_mem`). -/
inductive RunOutcome where
  | done : RunState → RunOutcome
  | suspended : String → RunState → RunOutcome
  | stuck : RunState → RunOutcome
deriving Repr

/-- `Orchestrator._get_decision_details`. -/
def getDecisionDetails (d : DecisionOutput) : DecisionDetails :=
  if d.decision_type = "tool" then DecisionDetails.tool d.selected_tool d.arguments
  else if d.decision_type = "hitl" then DecisionDetails.hitl d.hitl_request
  else if d.decision_type = "final" then DecisionDetails.final d.final_response
  else DecisionDetails.empty

/-- The fixed exhaustion message set when the step bound is reached. -/
def exhaustMsg (max_steps : Nat) : String :=
  "Agent terminated after " ++ toString max_steps ++
    " steps without reaching a final response."

/-- The external clock (`datetime.now().isoformat()`), modelled as an
opaque constant; no claim depends on timestamp values. -/
def clockTimestamp : String := ""

/-- The decision the adapter produces at the current point of the run:
`self._policy.decide(...)` applied to the oracle's next raw prediction. -/
def decisionOf (env : Externals) (rs : RunState) : DecisionOutput :=
  AgentPolicy.decide env.jsonLoads (env.oracle rs.oracleCalls)

/-- The audit `log_decision` call of one iteration (source step 2), plus
the bookkeeping that one oracle call has happened: the entry snapshots the
goal, the current history length and the policy context, and records the
decision type, details and rationale. -/
def logStep (env : Externals) (pc : PolicyContext) (step : Nat) (rs : RunState) : RunState :=
  { rs with
      audit := rs.audit.log_decision step clockTimestamp rs.state.goal
        rs.state.history.length pc (decisionOf env rs).decision_type
        (getDecisionDetails (decisionOf env rs)) (decisionOf env rs).rationale,
      oracleCalls := rs.oracleCalls + 1 }

/-- The `final` branch: set `state.final_response` and stop. -/
def finalStep (rs1 : RunState) (d : DecisionOutput) : RunState :=
  { rs1 with state := { rs1.state with final_response := Option.some d.final_response } }

/-- The `hitl` branch up to the channel call: the agent's question is
recorded in history, then the channel raises `HITLPendingError` and the
run is left in this state. -/
def hitlAskStep (step : Nat) (rs1 : RunState) (d : DecisionOutput) : RunState :=
  { rs1 with
      state := rs1.state.add_history_entry step Actor.agent "hitl_request"
        HOutcome.success d.hitl_request Option.none,
      hitlCalls := rs1.hitlCalls + 1 }

/-- The full `hitl` branch when the channel answers synchronously: agent
question entry, human response entry, and the `log_outcome` under the
current (pre-increment) step. -/
def hitlRespStep (step : Nat) (rs1 : RunState) (d : DecisionOutput)
    (human_input : String) : RunState :=
  { rs1 with
      state := (rs1.state.add_history_entry step Actor.agent "hitl_request"
          HOutcome.success d.hitl_request Option.none).add_history_entry step
          Actor.human "hitl_response" HOutcome.feedback human_input Option.none,
      audit := rs1.audit.log_outcome step "hitl" "feedback" human_input Option.none,
      hitlCalls := rs1.hitlCalls + 1 }

/-- The `tool` branch: `step += 1` first, then registry execution, the
history entry recorded under the incremented step with `result.message`,
and the `log_outcome` under the incremented step carrying `result.data`. -/
def toolStep (tools : ToolRegistry) (step : Nat) (rs1 : RunState)
    (d : DecisionOutput) : RunState :=
  let result := tools.execute d.selected_tool d.arguments
  { rs1 with
      state := rs1.state.add_history_entry (step + 1) Actor.tool d.selected_tool
        result.status.toHOutcome result.message (Option.some d.arguments),
      audit := rs1.audit.log_outcome (step + 1) "tool" result.status.str
        result.message result.data,
      toolCalls := rs1.toolCalls + 1 }

/-- The `while/else` exhaustion branch: the fixed termination message. -/
def exhaustStep (maxSteps : Nat) (rs : RunState) : RunState :=
  { rs with state := { rs.state with final_response := Option.some (exhaustMsg maxSteps) } }

/-- The `while step < max_steps` loop of `Orchestrator.run`, embedded with
a fuel counter satisfying `fuel = max_steps - step` (established at entry
with `fuel = max_steps, step = 0`, and preserved because every continuing
iteration increments `step` by exactly 1).  `fuel = 0` is exactly the
guard failing, which runs the `while/else` exhaustion branch.  One
iteration mirrors the source order: oracle call (adapter `decide`), audit
`log_decision` (`logStep`), then branch on the decision type — final sets
`final_response` and breaks (`finalStep`); hitl appends the agent question
entry, calls the channel (a raised `HITLPendingError` propagates as
`suspended` with the state `hitlAskStep`), otherwise appends the human
response entry, logs the outcome under the current step (`hitlRespStep`)
and then increments; tool increments first and executes via the registry
(`toolStep`). -/
def runAux (env : Externals) (tools : ToolRegistry) (pc : PolicyContext)
    (maxSteps : Nat) : Nat → Nat → RunState → RunOutcome
  | 0, _step, rs => RunOutcome.done (exhaustStep maxSteps rs)
  | fuel + 1, step, rs =>
      let decision := decisionOf env rs
      let rs1 := logStep env pc step rs
      if decision.decision_type = "final" then
        RunOutcome.done (finalStep rs1 decision)
      else if decision.decision_type = "hitl" then
        match env.hitl rs1.hitlCalls decision.hitl_request with
        | HITLReply.pending =>
            RunOutcome.suspended decision.hitl_request (hitlAskStep step rs1 decision)
        | HITLReply.response human_input =>
            runAux env tools pc maxSteps fuel (step + 1)
              (hitlRespStep step rs1 decision human_input)
      else if decision.decision_type = "tool" then
        runAux env tools pc maxSteps fuel (step + 1) (toolStep tools step rs1 decision)
      else
        RunOutcome.stuck rs1

/-- `Orchestrator.run(state, policy_context)` with `max_steps` from the
configuration and a fresh in-memory audit logger (the constructor's
`AuditLogger(log_dir=None)`, whose session id comes from the clock). -/
def Orchestrator.run (env : Externals) (tools : ToolRegistry) (pc : PolicyContext)
    (max_steps : Nat) (state : AgentState) (audit_session_id : String) : RunOutcome :=
  runAux env tools pc max_steps max_steps 0
    { state := state, audit := { session_id := audit_session_id, entries := [] },
      oracleCalls := 0, toolCalls := 0, hitlCalls := 0 }

/-- Projection used to talk about the audit log a run leaves behind,
whichever way the run ended. -/
def RunOutcome.auditEntries : RunOutcome → List AuditEntry
  | RunOutcome.done rs => rs.audit.entries
  | RunOutcome.suspended _ rs => rs.audit.entries
  | RunOutcome.stuck rs => rs.audit.entries

/-- Whether a run ended in a terminal state (a normal return of `run`):
`Final` was taken or the bound was exhausted.  `suspended` (queued-HITL
pending) and `stuck` are the non-terminal ways out. -/
def RunOutcome.isDone : RunOutcome → Bool
  | RunOutcome.done _ => true
  | RunOutcome.suspended _ _ => false
  | RunOutcome.stuck _ => false

/-- Policy context used by the concrete witness runs. -/
def pcW : PolicyContext := { org_policies := "", industry_rules := "", domain_guidelines := "" }

/-- Initial agent state used by the concrete witness runs. -/
def sW : AgentState :=
  { goal := "g", user_messages := [], history := [], final_response := Option.none }

/-- An empty tool registry, for witness runs that never execute a tool. -/
def toolsE : ToolRegistry := { tools := [], descriptions := [] }

/-- A raw oracle response that always selects a tool named "t". -/
def rawToolT : RawPrediction :=
  { rationale := "r", decision_type := "tool", selected_tool := "t", arguments := "",
    hitl_request := "", final_response := "", action_confirmation := "" }

/-- Externals whose oracle always answers with the tool decision `rawToolT`
and whose HITL channel answers synchronously. -/
def envTool : Externals :=
  { oracle := fun _ => rawToolT, hitl := fun _ _ => HITLReply.response "",
    jsonLoads := fun _ => Option.none }

/-- A registry holding one tool "t" that returns a successful result. -/
def toolsT : ToolRegistry :=
  { tools := [("t", fun _ => Except.ok (ToolReturn.toolResult (ToolResult.success "ok")))],
    descriptions := [("t", "")] }

/-- A concrete audit entry (step 0) used by the C10 witness. -/
def entryW : AuditEntry :=
  { step := 0
    timestamp := ""
    input_snapshot := { goal := "g", history_length := 0, policy_context := pcW }
    decision_output :=
      { decision_type := "final", rationale := "r", details := DecisionDetails.empty }
    outcome := Option.none }

/-- A one-entry audit log used by the C10 witness. -/
def logW : AuditLogger := { session_id := "s", entries := [entryW] }
/-- A raw oracle response with the typo decision type "Tooo" and an empty
`final_response` field. -/
def rawTooo : RawPrediction :=
  { rationale := "r", decision_type := "Tooo", selected_tool := "", arguments := "",
    hitl_request := "", final_response := "", action_confirmation := "" }
/-- Externals whose oracle always answers `rawTooo`. -/
def envTooo : Externals :=
  { oracle := fun _ => rawTooo, hitl := fun _ _ => HITLReply.response "",
    jsonLoads := fun _ => Option.none }

/-- A fresh run state (initial state `sW`, empty audit log, zero
counters) for the concrete witness runs. -/
def rsW0 : RunState :=
  { state := sW, audit := { session_id := "s", entries := [] },
    oracleCalls := 0, toolCalls := 0, hitlCalls := 0 }

/-- The run state a finished-or-interrupted run leaves behind. -/
def RunOutcome.stateOf : RunOutcome → RunState
  | RunOutcome.done rs => rs
  | RunOutcome.suspended _ rs => rs
  | RunOutcome.stuck rs => rs

/-- A raw oracle response that requests human input with question "q?". -/
def rawHitl : RawPrediction :=
  { rationale := "r", decision_type := "hitl", selected_tool := "", arguments := "",
    hitl_request := "q?", final_response := "", action_confirmation := "" }

/-- Externals whose oracle always asks for human input and whose channel
answers "ans" synchronously. -/
def envHitl : Externals :=
  { oracle := fun _ => rawHitl, hitl := fun _ _ => HITLReply.response "ans",
    jsonLoads := fun _ => Option.none }

/-- Helper: the adapter always resolves the decision type to one of the
three known values. -/
theorem decide_decision_type_mem (jl : String → Option PyDict) (raw : RawPrediction) :
    (AgentPolicy.decide jl raw).decision_type = "tool" ∨
    (AgentPolicy.decide jl raw).decision_type = "hitl" ∨
    (AgentPolicy.decide jl raw).decision_type = "final" := by
  unfold AgentPolicy.decide
  by_cases h : pyStrip (pyLower raw.decision_type) = "tool" ∨
      pyStrip (pyLower raw.decision_type) = "hitl" ∨
      pyStrip (pyLower raw.decision_type) = "final"
  · simp [h]
  · simp [h]

/-- Helper: field-by-field reconstruction undoes `to_dict`. -/
theorem entryFromDict_to_dict (e : AuditEntry) : entryFromDict e.to_dict = e := rfl

/-- Helper: the reversed-search update leaves a list unchanged when no
element carries the sought step. -/
theorem setOutcomeFirst_no_match (l : List AuditEntry) (step : Nat) (o : OutcomeDict)
    (h : ∀ e ∈ l, e.step ≠ step) : setOutcomeFirst l step o = l := by
  induction l with
  | nil => rfl
  | cons e rest ih =>
      have he : e.step ≠ step := h e (List.mem_cons_self e rest)
      simp only [setOutcomeFirst, if_neg he]
      rw [ih (fun x hx => h x (List.mem_cons_of_mem e hx))]

/-- C4: registry execution is total — for every name and argument mapping,
`execute` returns normally with a `ToolResult` and never propagates an
exception (the exception-transparent embedding `executeE` is always
`Except.ok`, with the value computed by the pure `execute`), including for
unregistered names and tools that raise. -/
theorem c4_registry_execute_total (reg : ToolRegistry) (name : String) (arguments : PyDict) :
    ToolRegistry.executeE reg name arguments =
      Except.ok (ToolRegistry.execute reg name arguments) := by
  unfold ToolRegistry.executeE ToolRegistry.execute
  cases lookupTool reg.tools name with
  | none => rfl
  | some tool =>
      cases htool : tool arguments with
      | ok r => cases r <;> simp [htool]
      | error e => cases e <;> simp [htool]

/-- C9: executing an unregistered name returns `ToolResult.error` with the
exact message `Tool '<name>' not found`, without raising (the
exception-transparent embedding returns it as a normal value) and without
invoking any tool (the result is fixed regardless of the registered
callables). -/
theorem c9_unknown_tool_not_found (reg : ToolRegistry) (name : String) (arguments : PyDict)
    (h : lookupTool reg.tools name = Option.none) :
    ToolRegistry.execute reg name arguments =
      ToolResult.error ("Tool \x27" ++ name ++ "\x27 not found") ∧
    ToolRegistry.executeE reg name arguments =
      Except.ok (ToolResult.error ("Tool \x27" ++ name ++ "\x27 not found")) := by
  unfold ToolRegistry.execute ToolRegistry.executeE
  rw [h]
  exact ⟨rfl, rfl⟩

/-- C9 witness: the registry has no tool named "ghost";
`execute("ghost", {})` yields exactly the not-found error result. -/
theorem c9_witness :
    lookupTool toolsE.tools "ghost" = Option.none ∧
    ToolRegistry.execute toolsE "ghost" [] = ToolResult.error "Tool \x27ghost\x27 not found" :=
  ⟨rfl, (c9_unknown_tool_not_found toolsE "ghost" [] rfl).1⟩

/-- C7: audit replay round-trip — loading the exported session data yields
a log whose entries equal the original's, field by field and in order. -/
theorem c7_audit_replay_round_trip (log : AuditLogger) (sid : String) :
    (AuditLogger.load_session sid (log.export_session).entries).entries = log.entries := by
  unfold AuditLogger.load_session AuditLogger.export_session
  simp [List.map_map, Function.comp_def, entryFromDict_to_dict]

/-- C10: when no audit entry carries the given step, `log_outcome` is a
silent no-op — the logger is returned unchanged, nothing is appended or
modified, and (being a total function in the embedding, as in the source,
whose only actions are a search and an in-place assignment) nothing is
raised. -/
theorem c10_log_outcome_unmatched_noop (log : AuditLogger) (step : Nat)
    (outcome_type status result : String) (data : Option PyDict)
    (h : ∀ e ∈ log.entries, e.step ≠ step) :
    log.log_outcome step outcome_type status result data = log := by
  unfold AuditLogger.log_outcome
  rw [setOutcomeFirst_no_match log.entries.reverse step _
    (fun e he => h e (List.mem_reverse.mp he))]
  simp



/-- C10 witness: a log holding only a step-0 entry is unchanged by
`log_outcome` at step 1. -/
theorem c10_witness :
    (∀ e ∈ logW.entries, e.step ≠ 1) ∧
    AuditLogger.log_outcome logW 1 "tool" "success" "m" Option.none = logW :=
  ⟨by simp [logW, entryW], c10_log_outcome_unmatched_noop logW 1 "tool" "success" "m"
    Option.none (by simp [logW, entryW])⟩

/-- C6 counterexample: with a pending request "q" and `provide_response
"ans"` already called, the next `request_human_input` still raises
`HITLPendingError` (an `Except.error` carrying the request) — it does not
return the queued response "ans", contrary to the claim. -/
theorem c6_counterexample :
    ((((AsyncHITLHandler.init.request_human_input "q").1).provide_response
        "ans").request_human_input "q").2 = Except.error "q" ∧
    ¬ ((((AsyncHITLHandler.init.request_human_input "q").1).provide_response
        "ans").request_human_input "q").2 = Except.ok "ans" := by
  refine ⟨rfl, fun hc => ?_⟩
  exact Except.noConfusion hc

/-- C6 amended: after `provide_response text` the pending flag is cleared
and the queued text is retrieved through `get_response` (which returns it
and clears the slot); `request_human_input` itself always signals pending
with the request text and never returns the queued response. -/
theorem c6_async_provide_then_get (h : AsyncHITLHandler) (text : String) :
    (h.provide_response text).pending_request = Option.none ∧
    (h.provide_response text).get_response =
      Except.ok (text, { pending_request := Option.none, response := Option.none }) ∧
    ∀ request : String,
      ((h.provide_response text).request_human_input request).2 = Except.error request := by
  refine ⟨rfl, rfl, fun request => rfl⟩

/-- Helper: on an unrecognized decision type the adapter yields exactly the
coerced-to-final decision, with `final_response` taken verbatim from the
raw response. -/
theorem decide_unrecognized (jl : String → Option PyDict) (raw : RawPrediction)
    (h : ¬(pyStrip (pyLower raw.decision_type) = "tool" ∨
           pyStrip (pyLower raw.decision_type) = "hitl" ∨
           pyStrip (pyLower raw.decision_type) = "final")) :
    AgentPolicy.decide jl raw =
      { rationale := raw.rationale
        decision_type := "final"
        selected_tool := ""
        arguments := []
        hitl_request := ""
        final_response := raw.final_response } := by
  unfold AgentPolicy.decide
  simp [h]



/-- C5 counterexample: on the raw response `rawTooo` (type "Tooo", empty
`final_response`) the adapter does coerce the type to "final", but the
resulting `final_response` is the empty string — not a non-empty
diagnostic string as the claim states. -/
theorem c5_counterexample :
    (AgentPolicy.decide (fun _ => Option.none) rawTooo).decision_type = "final" ∧
    ¬((AgentPolicy.decide (fun _ => Option.none) rawTooo).final_response ≠ "") := by
  exact ⟨by decide, by decide⟩

/-- C5 (amended): for every raw oracle response whose normalized decision
type is none of tool/hitl/final, the adapter returns a Final decision
whose `final_response` is taken verbatim from the raw response's
`final_response` field (possibly empty, not a synthesized diagnostic), and
the loop then terminates on that step — a `done` outcome with no further
recursion, so the step counter is not incremented and no tool or HITL call
happens. -/
theorem c5_unrecognized_coerced_to_final (env : Externals) (tools : ToolRegistry)
    (pc : PolicyContext) (maxSteps fuel step : Nat) (rs : RunState)
    (h : ¬(pyStrip (pyLower (env.oracle rs.oracleCalls).decision_type) = "tool" ∨
           pyStrip (pyLower (env.oracle rs.oracleCalls).decision_type) = "hitl" ∨
           pyStrip (pyLower (env.oracle rs.oracleCalls).decision_type) = "final")) :
    (AgentPolicy.decide env.jsonLoads (env.oracle rs.oracleCalls)).decision_type = "final" ∧
    (AgentPolicy.decide env.jsonLoads (env.oracle rs.oracleCalls)).final_response =
      (env.oracle rs.oracleCalls).final_response ∧
    runAux env tools pc maxSteps (fuel + 1) step rs =
      RunOutcome.done
        (RunState.mk
          (AgentState.mk rs.state.goal rs.state.user_messages rs.state.history
            (Option.some (env.oracle rs.oracleCalls).final_response))
          (rs.audit.log_decision step clockTimestamp rs.state.goal
            rs.state.history.length pc "final"
            (DecisionDetails.final (env.oracle rs.oracleCalls).final_response)
            (env.oracle rs.oracleCalls).rationale)
          (rs.oracleCalls + 1) rs.toolCalls rs.hitlCalls) := by
  have hd := decide_unrecognized env.jsonLoads (env.oracle rs.oracleCalls) h
  refine ⟨by rw [hd], by rw [hd], ?_⟩
  simp only [runAux, decisionOf, hd, logStep, finalStep, getDecisionDetails]
  simp



/-- C5 witness: the "Tooo" typo response is coerced to Final carrying the
raw (empty) `final_response`, and the loop iteration terminates at once. -/
theorem c5_witness :
    ¬(pyStrip (pyLower (envTooo.oracle rsW0.oracleCalls).decision_type) = "tool" ∨
      pyStrip (pyLower (envTooo.oracle rsW0.oracleCalls).decision_type) = "hitl" ∨
      pyStrip (pyLower (envTooo.oracle rsW0.oracleCalls).decision_type) = "final") ∧
    ((AgentPolicy.decide envTooo.jsonLoads (envTooo.oracle rsW0.oracleCalls)).decision_type =
        "final" ∧
     (AgentPolicy.decide envTooo.jsonLoads (envTooo.oracle rsW0.oracleCalls)).final_response =
        (envTooo.oracle rsW0.oracleCalls).final_response ∧
     runAux envTooo toolsE pcW 5 (4 + 1) 0 rsW0 =
       RunOutcome.done
         (RunState.mk
           (AgentState.mk rsW0.state.goal rsW0.state.user_messages rsW0.state.history
             (Option.some (envTooo.oracle rsW0.oracleCalls).final_response))
           (rsW0.audit.log_decision 0 clockTimestamp rsW0.state.goal
             rsW0.state.history.length pcW "final"
             (DecisionDetails.final (envTooo.oracle rsW0.oracleCalls).final_response)
             (envTooo.oracle rsW0.oracleCalls).rationale)
           (rsW0.oracleCalls + 1) rsW0.toolCalls rsW0.hitlCalls)) :=
  ⟨by simp [envTooo, rawTooo, rsW0]; decide,
   c5_unrecognized_coerced_to_final envTooo toolsE pcW 5 4 0 rsW0
     (by simp [envTooo, rawTooo, rsW0]; decide)⟩

/-- Helper: `decisionOf` always lies in the three known decision types. -/
theorem decisionOf_mem (env : Externals) (rs : RunState) :
    (decisionOf env rs).decision_type = "tool" ∨
    (decisionOf env rs).decision_type = "hitl" ∨
    (decisionOf env rs).decision_type = "final" :=
  decide_decision_type_mem env.jsonLoads (env.oracle rs.oracleCalls)

/-- Helper: `logStep` does not touch the agent state. -/
theorem logStep_state (env : Externals) (pc : PolicyContext) (step : Nat) (rs : RunState) :
    (logStep env pc step rs).state = rs.state := rfl

/-- Helper: `logStep` counts one oracle call. -/
theorem logStep_oracleCalls (env : Externals) (pc : PolicyContext) (step : Nat)
    (rs : RunState) : (logStep env pc step rs).oracleCalls = rs.oracleCalls + 1 := rfl

/-- Helper: `logStep` executes no tool. -/
theorem logStep_toolCalls (env : Externals) (pc : PolicyContext) (step : Nat)
    (rs : RunState) : (logStep env pc step rs).toolCalls = rs.toolCalls := rfl

/-- Helper: `logStep` makes no HITL call. -/
theorem logStep_hitlCalls (env : Externals) (pc : PolicyContext) (step : Nat)
    (rs : RunState) : (logStep env pc step rs).hitlCalls = rs.hitlCalls := rfl

/-- Helper: the tool branch leaves `final_response` untouched. -/
theorem toolStep_final_response (tools : ToolRegistry) (step : Nat) (rs1 : RunState)
    (d : DecisionOutput) :
    (toolStep tools step rs1 d).state.final_response = rs1.state.final_response := rfl

/-- Helper: the tool branch makes no oracle call. -/
theorem toolStep_oracleCalls (tools : ToolRegistry) (step : Nat) (rs1 : RunState)
    (d : DecisionOutput) : (toolStep tools step rs1 d).oracleCalls = rs1.oracleCalls := rfl

/-- Helper: the tool branch executes exactly one tool. -/
theorem toolStep_toolCalls (tools : ToolRegistry) (step : Nat) (rs1 : RunState)
    (d : DecisionOutput) : (toolStep tools step rs1 d).toolCalls = rs1.toolCalls + 1 := rfl

/-- Helper: the synchronous HITL round leaves `final_response` untouched. -/
theorem hitlRespStep_final_response (step : Nat) (rs1 : RunState) (d : DecisionOutput)
    (s : String) :
    (hitlRespStep step rs1 d s).state.final_response = rs1.state.final_response := rfl

/-- Helper: the pending HITL branch leaves `final_response` untouched. -/
theorem hitlAskStep_final_response (step : Nat) (rs1 : RunState) (d : DecisionOutput) :
    (hitlAskStep step rs1 d).state.final_response = rs1.state.final_response := rfl

/-- Helper: the final branch sets `final_response` to the decision's text. -/
theorem finalStep_final_response (rs1 : RunState) (d : DecisionOutput) :
    (finalStep rs1 d).state.final_response = Option.some d.final_response := rfl

/-- Helper: the loop equation for a tool decision. -/
theorem runAux_tool_step (env : Externals) (tools : ToolRegistry) (pc : PolicyContext)
    (maxSteps fuel step : Nat) (rs : RunState)
    (hd : (decisionOf env rs).decision_type = "tool") :
    runAux env tools pc maxSteps (fuel + 1) step rs =
      runAux env tools pc maxSteps fuel (step + 1)
        (toolStep tools step (logStep env pc step rs) (decisionOf env rs)) := by
  simp only [runAux, hd]
  simp

/-- Helper: the loop equation for a final decision. -/
theorem runAux_final_step (env : Externals) (tools : ToolRegistry) (pc : PolicyContext)
    (maxSteps fuel step : Nat) (rs : RunState)
    (hd : (decisionOf env rs).decision_type = "final") :
    runAux env tools pc maxSteps (fuel + 1) step rs =
      RunOutcome.done (finalStep (logStep env pc step rs) (decisionOf env rs)) := by
  simp only [runAux, hd]
  simp

/-- Helper: the loop equation for a HITL decision whose channel signals
pending — the `HITLPendingError` propagates out of `run`. -/
theorem runAux_hitl_pending (env : Externals) (tools : ToolRegistry) (pc : PolicyContext)
    (maxSteps fuel step : Nat) (rs : RunState)
    (hd : (decisionOf env rs).decision_type = "hitl")
    (hh : env.hitl rs.hitlCalls (decisionOf env rs).hitl_request = HITLReply.pending) :
    runAux env tools pc maxSteps (fuel + 1) step rs =
      RunOutcome.suspended (decisionOf env rs).hitl_request
        (hitlAskStep step (logStep env pc step rs) (decisionOf env rs)) := by
  simp only [runAux, hd, logStep_hitlCalls, hh]
  simp

/-- Helper: the loop equation for a HITL decision answered synchronously. -/
theorem runAux_hitl_response (env : Externals) (tools : ToolRegistry) (pc : PolicyContext)
    (maxSteps fuel step : Nat) (rs : RunState) (s : String)
    (hd : (decisionOf env rs).decision_type = "hitl")
    (hh : env.hitl rs.hitlCalls (decisionOf env rs).hitl_request = HITLReply.response s) :
    runAux env tools pc maxSteps (fuel + 1) step rs =
      runAux env tools pc maxSteps fuel (step + 1)
        (hitlRespStep step (logStep env pc step rs) (decisionOf env rs) s) := by
  simp only [runAux, hd, logStep_hitlCalls, hh]
  simp

/-- Helper (C2 core): against an oracle that always decides Tool, the loop
consumes all its fuel in tool iterations, making one oracle call and one
tool execution per unit of fuel, and ends exhausted with the fixed
message. -/
theorem runAux_always_tool (env : Externals) (tools : ToolRegistry) (pc : PolicyContext)
    (maxSteps : Nat)
    (h : ∀ n, (AgentPolicy.decide env.jsonLoads (env.oracle n)).decision_type = "tool")
    (fuel : Nat) : ∀ (step : Nat) (rs : RunState),
    (runAux env tools pc maxSteps fuel step rs).isDone = true ∧
    (runAux env tools pc maxSteps fuel step rs).stateOf.oracleCalls = rs.oracleCalls + fuel ∧
    (runAux env tools pc maxSteps fuel step rs).stateOf.toolCalls = rs.toolCalls + fuel ∧
    (runAux env tools pc maxSteps fuel step rs).stateOf.state.final_response =
      Option.some (exhaustMsg maxSteps) := by
  induction fuel with
  | zero =>
      intro step rs
      exact ⟨rfl, rfl, rfl, rfl⟩
  | succ fuel ih =>
      intro step rs
      have hd : (decisionOf env rs).decision_type = "tool" := h rs.oracleCalls
      rw [runAux_tool_step env tools pc maxSteps fuel step rs hd]
      obtain ⟨h1, h2, h3, h4⟩ :=
        ih (step + 1) (toolStep tools step (logStep env pc step rs) (decisionOf env rs))
      refine ⟨h1, ?_, ?_, h4⟩
      · rw [h2, toolStep_oracleCalls, logStep_oracleCalls]
        omega
      · rw [h3, toolStep_toolCalls, logStep_toolCalls]
        omega

/-- C2: with `max_steps = N` and an oracle that always returns a Tool
decision, `run` makes exactly `N` oracle calls and `N` tool executions,
then returns normally with `final_response` set to the fixed exhaustion
message — and makes no further oracle call. -/
theorem c2_bound_enforcement (env : Externals) (tools : ToolRegistry) (pc : PolicyContext)
    (N : Nat) (state : AgentState) (sid : String)
    (h : ∀ n, (AgentPolicy.decide env.jsonLoads (env.oracle n)).decision_type = "tool") :
    (Orchestrator.run env tools pc N state sid).isDone = true ∧
    (Orchestrator.run env tools pc N state sid).stateOf.oracleCalls = N ∧
    (Orchestrator.run env tools pc N state sid).stateOf.toolCalls = N ∧
    (Orchestrator.run env tools pc N state sid).stateOf.state.final_response =
      Option.some (exhaustMsg N) := by
  have H := runAux_always_tool env tools pc N h N 0
    { state := state, audit := { session_id := sid, entries := [] },
      oracleCalls := 0, toolCalls := 0, hitlCalls := 0 }
  simpa [Orchestrator.run] using H

/-- C2 witness: an always-Tool oracle with `max_steps = 2` makes exactly
2 oracle calls and 2 tool executions and ends with the exhaustion
message. -/
theorem c2_witness :
    (∀ n, (AgentPolicy.decide envTool.jsonLoads (envTool.oracle n)).decision_type = "tool") ∧
    ((Orchestrator.run envTool toolsT pcW 2 sW "s").isDone = true ∧
     (Orchestrator.run envTool toolsT pcW 2 sW "s").stateOf.oracleCalls = 2 ∧
     (Orchestrator.run envTool toolsT pcW 2 sW "s").stateOf.toolCalls = 2 ∧
     (Orchestrator.run envTool toolsT pcW 2 sW "s").stateOf.state.final_response =
       Option.some (exhaustMsg 2)) :=
  ⟨fun _ => rfl, c2_bound_enforcement envTool toolsT pcW 2 sW "s" (fun _ => rfl)⟩

/-- C3: starting from any mid-run state whose `final_response` is null,
the run leaves `final_response` non-null exactly when it reaches a
terminal outcome (`done`: a Final decision or exhaustion); when the run
does not terminate — including suspension by a pending queued-HITL signal
— `final_response` stays null. -/
theorem c3_final_response_iff_terminal (env : Externals) (tools : ToolRegistry)
    (pc : PolicyContext) (maxSteps fuel : Nat) : ∀ (step : Nat) (rs : RunState),
    rs.state.final_response = Option.none →
    ((runAux env tools pc maxSteps fuel step rs).isDone = true →
      ((runAux env tools pc maxSteps fuel step rs).stateOf.state.final_response).isSome =
        true) ∧
    ((runAux env tools pc maxSteps fuel step rs).isDone = false →
      (runAux env tools pc maxSteps fuel step rs).stateOf.state.final_response =
        Option.none) := by
  induction fuel with
  | zero =>
      intro step rs h
      constructor
      · intro _
        simp [runAux, RunOutcome.stateOf, exhaustStep]
      · intro hfalse
        simp [runAux, RunOutcome.isDone] at hfalse
  | succ fuel ih =>
      intro step rs h
      rcases decisionOf_mem env rs with hd | hd | hd
      · rw [runAux_tool_step env tools pc maxSteps fuel step rs hd]
        exact ih (step + 1) _ (by rw [toolStep_final_response, logStep_state, h])
      · cases hh : env.hitl rs.hitlCalls (decisionOf env rs).hitl_request with
        | pending =>
            rw [runAux_hitl_pending env tools pc maxSteps fuel step rs hd hh]
            constructor
            · intro hT
              simp [RunOutcome.isDone] at hT
            · intro _
              rw [show (RunOutcome.suspended (decisionOf env rs).hitl_request
                  (hitlAskStep step (logStep env pc step rs) (decisionOf env rs))).stateOf =
                  hitlAskStep step (logStep env pc step rs) (decisionOf env rs) from rfl,
                hitlAskStep_final_response, logStep_state, h]
        | response s =>
            rw [runAux_hitl_response env tools pc maxSteps fuel step rs s hd hh]
            exact ih (step + 1) _ (by rw [hitlRespStep_final_response, logStep_state, h])
      · rw [runAux_final_step env tools pc maxSteps fuel step rs hd]
        constructor
        · intro _
          simp [RunOutcome.stateOf, finalStep_final_response]
        · intro hF
          simp [RunOutcome.isDone] at hF

/-- C3 witness: a run that takes a (coerced) Final decision terminates
with a non-null `final_response`, starting from a null one. -/
theorem c3_witness :
    rsW0.state.final_response = Option.none ∧
    (runAux envTooo toolsE pcW 1 1 0 rsW0).isDone = true ∧
    ((runAux envTooo toolsE pcW 1 1 0 rsW0).stateOf.state.final_response).isSome = true :=
  ⟨rfl, by decide,
   (c3_final_response_iff_terminal envTooo toolsE pcW 1 1 0 rsW0 rfl).1 (by decide)⟩

/-- C8: in an iteration where the decision is HITL and the channel answers
synchronously, the loop continues at `step + 1` (the counter advances by
exactly 1, only after the full question/answer round) with exactly two
history entries appended — the agent's hitl_request with outcome success,
then the human's hitl_response with outcome feedback, both recorded under
the pre-increment step — and no tool execution. -/
theorem c8_hitl_round_trip (env : Externals) (tools : ToolRegistry) (pc : PolicyContext)
    (maxSteps fuel step : Nat) (rs : RunState) (s : String)
    (hd : (decisionOf env rs).decision_type = "hitl")
    (hh : env.hitl rs.hitlCalls (decisionOf env rs).hitl_request = HITLReply.response s) :
    runAux env tools pc maxSteps (fuel + 1) step rs =
      runAux env tools pc maxSteps fuel (step + 1)
        (hitlRespStep step (logStep env pc step rs) (decisionOf env rs) s) ∧
    (hitlRespStep step (logStep env pc step rs) (decisionOf env rs) s).state.history =
      rs.state.history ++
        [HistoryEntry.mk step Actor.agent "hitl_request" Option.none HOutcome.success
           (decisionOf env rs).hitl_request,
         HistoryEntry.mk step Actor.human "hitl_response" Option.none HOutcome.feedback s] ∧
    (hitlRespStep step (logStep env pc step rs) (decisionOf env rs) s).toolCalls =
      rs.toolCalls := by
  refine ⟨runAux_hitl_response env tools pc maxSteps fuel step rs s hd hh, ?_, rfl⟩
  simp [hitlRespStep, logStep, AgentState.add_history_entry, List.append_assoc]

/-- C8 witness: a concrete HITL question "q?" answered "ans" appends
exactly the two expected entries at step 0. -/
theorem c8_witness :
    (decisionOf envHitl rsW0).decision_type = "hitl" ∧
    envHitl.hitl rsW0.hitlCalls (decisionOf envHitl rsW0).hitl_request =
      HITLReply.response "ans" ∧
    (hitlRespStep 0 (logStep envHitl pcW 0 rsW0) (decisionOf envHitl rsW0) "ans").state.history =
      rsW0.state.history ++
        [HistoryEntry.mk 0 Actor.agent "hitl_request" Option.none HOutcome.success
           (decisionOf envHitl rsW0).hitl_request,
         HistoryEntry.mk 0 Actor.human "hitl_response" Option.none HOutcome.feedback "ans"] :=
  ⟨by decide, rfl,
   ((c8_hitl_round_trip envHitl toolsE pcW 3 2 0 rsW0 "ans" (by decide) rfl).2).1⟩

/-- C1 (failing-input evaluation): running with `max_steps = 1` against an
always-Tool oracle and a registry whose tool "t" succeeds, the single
audit entry — created by `log_decision` at step 0 — still has
`outcome = none` after the run: the tool branch increments the step
counter before calling `log_outcome`, so the outcome is logged under
step 1, matches no entry, and is silently discarded instead of being
attached to the decision's entry. -/
theorem c1_tool_outcome_never_attached :
    (Orchestrator.run envTool toolsT pcW 1 sW "s").auditEntries.map
      (fun e => (e.step, e.outcome)) = [(0, Option.none)] := by
  decide
